import Mathlib

/-!
Verification development for the browser-side script `static/app.js` of the
Contabilidad repository.  The script wires DOM events (drag-and-drop row
reordering, click/keydown cell marking, double-click "pagado", column
summation, date-sort toggle) to REST-like POST endpoints and mutates the DOM.

The embedding below is shallow: JavaScript numbers are modelled exactly as
rationals extended with positive/negative infinity and NaN (no double
rounding), DOM elements are records of their class lists and data attributes,
and each event handler is a pure function from the relevant DOM state (and,
for response continuations, the fetch outcome) to the new state plus the
requests it issues.
-/

/-- Model of a JavaScript number as produced by string conversion: an exact
rational, one of the two infinities, or NaN. -/
inductive JsNum where
  | finite : ℚ → JsNum
  | posInf : JsNum
  | negInf : JsNum
  | nan : JsNum
deriving DecidableEq, Repr

/-- JavaScript `Number.isNaN`. -/
def JsNum.isNaN : JsNum → Bool
  | .nan => true
  | _ => false

/-- JavaScript `+` on numbers (addition semantics on the extended rationals:
NaN is absorbing and opposite infinities give NaN). -/
def jsAdd : JsNum → JsNum → JsNum
  | .nan, _ => .nan
  | _, .nan => .nan
  | .finite a, .finite b => .finite (a + b)
  | .finite _, .posInf => .posInf
  | .posInf, .finite _ => .posInf
  | .finite _, .negInf => .negInf
  | .negInf, .finite _ => .negInf
  | .posInf, .posInf => .posInf
  | .negInf, .negInf => .negInf
  | .posInf, .negInf => .nan
  | .negInf, .posInf => .nan

/-- JavaScript unary minus on numbers. -/
def jsNeg : JsNum → JsNum
  | .finite a => .finite (-a)
  | .posInf => .negInf
  | .negInf => .posInf
  | .nan => .nan

/-- JavaScript strict equality `x === 0` (true only for finite zero; NaN and
the infinities compare false). -/
def jsEqZero : JsNum → Bool
  | .finite q => q = 0
  | _ => false

/-! ### String-to-number conversion (`Number(str)` and `parseInt(str)`) -/

/-- Numeric value of a decimal digit character. -/
def digitVal (c : Char) : Nat := c.toNat - '0'.toNat

/-- Hexadecimal digit test. -/
def isHexDigitChar (c : Char) : Bool :=
  c.isDigit || ('a' ≤ c && c ≤ 'f') || ('A' ≤ c && c ≤ 'F')

/-- Numeric value of a hexadecimal digit character. -/
def hexDigitVal (c : Char) : Nat :=
  if c.isDigit then digitVal c
  else if 'a' ≤ c && c ≤ 'f' then c.toNat - 'a'.toNat + 10
  else c.toNat - 'A'.toNat + 10

/-- Value of a decimal digit string. -/
def decValue (l : List Char) : Nat :=
  l.foldl (fun a c => a * 10 + digitVal c) 0

/-- Value of a hexadecimal digit string. -/
def hexValue (l : List Char) : Nat :=
  l.foldl (fun a c => a * 16 + hexDigitVal c) 0

/-- Value of an octal digit string. -/
def octValue (l : List Char) : Nat :=
  l.foldl (fun a c => a * 8 + digitVal c) 0

/-- Value of a binary digit string. -/
def binValue (l : List Char) : Nat :=
  l.foldl (fun a c => a * 2 + digitVal c) 0

/-- Whitespace trimming on both ends, as done by `String.prototype.trim` and
by the implicit trim inside `Number(str)`. -/
def trimChars (l : List Char) : List Char :=
  ((l.dropWhile Char.isWhitespace).reverse.dropWhile Char.isWhitespace).reverse

/-- Mantissa of an ECMAScript StrUnsignedDecimalLiteral without the exponent:
`digits`, `digits.digits?` or `.digits`; anything else is not a number.  The
value is returned as a numerator/denominator pair of naturals (denominator a
power of ten), so the rational is assembled with `mkRat` only. -/
def parseMantissa (l : List Char) : Option (Nat × Nat) :=
  let intPart := l.takeWhile Char.isDigit
  let rest := l.dropWhile Char.isDigit
  match rest with
  | [] => if intPart.isEmpty then none else some (decValue intPart, 1)
  | '.' :: frac =>
    if frac.all Char.isDigit then
      if intPart.isEmpty && frac.isEmpty then none
      else some (decValue intPart * 10 ^ frac.length + decValue frac, 10 ^ frac.length)
    else none
  | _ => none

/-- Scale the fraction `n / d` by `10 ^ e` (the exponent part of a decimal
literal), staying inside `mkRat`. -/
def scaleByPow10 (e : Int) (n : Nat) (d : Nat) : ℚ :=
  match e with
  | .ofNat k => mkRat (n * 10 ^ k) d
  | .negSucc k => mkRat n (d * 10 ^ (k + 1))

/-- Signed decimal-digit integer (used for the exponent part). -/
def parseSignedDigits (l : List Char) : Option Int :=
  match l with
  | '+' :: rest =>
    if rest.isEmpty || !rest.all Char.isDigit then none else some (decValue rest)
  | '-' :: rest =>
    if rest.isEmpty || !rest.all Char.isDigit then none else some (-(decValue rest : Int))
  | rest =>
    if rest.isEmpty || !rest.all Char.isDigit then none else some (decValue rest)

/-- ECMAScript StrUnsignedDecimalLiteral: `Infinity`, or a decimal mantissa
with an optional `e`/`E` exponent. -/
def parseStrUnsigned (l : List Char) : Option JsNum :=
  if l = "Infinity".data then some .posInf
  else
    let mant := l.takeWhile (fun c => c ≠ 'e' && c ≠ 'E')
    let rest := l.dropWhile (fun c => c ≠ 'e' && c ≠ 'E')
    match parseMantissa mant with
    | none => none
    | some nd =>
      match rest with
      | [] => some (.finite (mkRat nd.1 nd.2))
      | _ :: expPart =>
        match parseSignedDigits expPart with
        | none => none
        | some e => some (.finite (scaleByPow10 e nd.1 nd.2))

/-- Radix-prefixed digits for `0x`/`0o`/`0b` literals: the whole remainder
must be non-empty digits of that radix. -/
def parseRadixDigits (value : List Char → Nat) (good : Char → Bool)
    (l : List Char) : Option JsNum :=
  if l.isEmpty || !l.all good then none else some (.finite (value l))

/-- ECMAScript StrNumericLiteral: an optionally signed decimal literal, or an
unsigned `0x`/`0X`, `0o`/`0O`, `0b`/`0B` literal. -/
def parseStrNumeric (l : List Char) : Option JsNum :=
  match l with
  | '+' :: rest => parseStrUnsigned rest
  | '-' :: rest => (parseStrUnsigned rest).map jsNeg
  | '0' :: c :: rest =>
    if c = 'x' || c = 'X' then parseRadixDigits hexValue isHexDigitChar rest
    else if c = 'o' || c = 'O' then
      parseRadixDigits octValue (fun d => '0' ≤ d && d ≤ '7') rest
    else if c = 'b' || c = 'B' then
      parseRadixDigits binValue (fun d => d = '0' || d = '1') rest
    else parseStrUnsigned l
  | _ => parseStrUnsigned l

/-- JavaScript `Number(str)` on a character list: trim, empty means zero,
otherwise the StrNumericLiteral value, and NaN when nothing matches. -/
def jsNumberChars (l : List Char) : JsNum :=
  let t := trimChars l
  if t.isEmpty then .finite 0
  else
    match parseStrNumeric t with
    | some v => v
    | none => .nan

/-- JavaScript `Number(str)` on a string. -/
def jsNumber (s : String) : JsNum := jsNumberChars s.data

/-- Replace the first comma by a dot, as `str.replace(',', '.')` does with a
string pattern. -/
def replaceFirstComma : List Char → List Char
  | [] => []
  | c :: rest => if c = ',' then '.' :: rest else c :: replaceFirstComma rest

/-- The ES-format fallback conversion used by `parseNum`: remove every dot,
then turn the first comma into a dot (source:
`str.replace(/\./g, '').replace(',', '.')`). -/
def esConvert (l : List Char) : List Char :=
  replaceFirstComma (l.filter (fun c => c ≠ '.'))

/-- The script's `parseNum` (app.js lines 246-254): trim, try `Number`
directly, otherwise retry on the ES-converted string, and fall back to 0. -/
def parseNum (raw : String) : JsNum :=
  let str := trimChars raw.data
  let n := jsNumberChars str
  if n.isNaN = false then n
  else
    let n2 := jsNumberChars (esConvert str)
    if n2.isNaN = true then .finite 0 else n2

/-- JavaScript `parseInt(str)` digits part: after the sign, either a
`0x`/`0X` prefix followed by a non-empty longest hex-digit prefix, or a
non-empty longest decimal-digit prefix. -/
def parseIntBody (l : List Char) : Option Nat :=
  match l with
  | '0' :: 'x' :: rest =>
    let ds := rest.takeWhile isHexDigitChar
    if ds.isEmpty then none else some (hexValue ds)
  | '0' :: 'X' :: rest =>
    let ds := rest.takeWhile isHexDigitChar
    if ds.isEmpty then none else some (hexValue ds)
  | _ =>
    let ds := l.takeWhile Char.isDigit
    if ds.isEmpty then none else some (decValue ds)

/-- JavaScript `parseInt(str)` (no radix argument): skip leading whitespace,
optional sign, then the longest digit prefix; `none` models NaN. -/
def jsParseInt (s : String) : Option Int :=
  let l := s.data.dropWhile Char.isWhitespace
  match l with
  | '+' :: rest => (parseIntBody rest).map (fun n => (n : Int))
  | '-' :: rest => (parseIntBody rest).map (fun n => -(n : Int))
  | _ => (parseIntBody l).map (fun n => (n : Int))

example : jsNumber "12.5" = .finite (mkRat 25 2) := by rfl
example : jsNumber "1,5" = .nan := by rfl
example : parseNum "1,5" = .finite (mkRat 3 2) := by rfl
example : parseNum "1.234,5" = .finite (mkRat 2469 2) := by rfl
example : parseNum "abc" = .finite 0 := by rfl
example : parseNum " -7 " = .finite (-7) := by rfl
example : jsNumber "0x1A" = .finite 26 := by rfl
example : jsNumber "Infinity" = .posInf := by rfl
example : jsNumber "-Infinity" = .negInf := by rfl
example : jsNumber "" = .finite 0 := by rfl
example : jsNumber "5.e2" = .finite 500 := by rfl
example : jsNumber ".5e1" = .finite 5 := by rfl
example : jsNumber "1e-2" = .finite (mkRat 1 100) := by rfl
example : jsParseInt "7" = some 7 := by rfl
example : jsParseInt "-3x" = some (-3) := by rfl
example : jsParseInt "a" = none := by rfl
example : jsParseInt "0x10" = some 16 := by rfl

/-! ### DOM model: cells, class lists, mark handlers -/

/-- A table cell (`td`) as the script sees it: its class list and the data
attributes it reads (`getAttribute` returns `none` for a missing one). -/
structure Cell where
  classes : List String
  dataId : Option String
  dataCol : Option String
  dataVal : Option String
deriving DecidableEq, Repr

/-- DOM `classList.contains`. -/
def hasClass (c : Cell) (cls : String) : Bool := c.classes.contains cls

/-- DOM `classList.add` of one token (a `DOMTokenList` never duplicates). -/
def addClass (c : Cell) (cls : String) : Cell :=
  if c.classes.contains cls then c else { c with classes := c.classes ++ [cls] }

/-- DOM `classList.remove` of one token. -/
def removeClass (c : Cell) (cls : String) : Cell :=
  { c with classes := c.classes.filter (fun t => t ≠ cls) }

/-- Initialization cleanup of a `td.num-cell` (app.js lines 100-103): when
none of `mark-1` … `mark-9` is present, drop the stray `marked` class. -/
def initCleanup (td : Cell) : Cell :=
  if !hasClass td "mark-1" && !hasClass td "mark-2" && !hasClass td "mark-3" &&
     !hasClass td "mark-4" && !hasClass td "mark-5" && !hasClass td "mark-6" &&
     !hasClass td "mark-7" && !hasClass td "mark-8" && !hasClass td "mark-9" then
    removeClass td "marked"
  else td

/-- The class removals done by the mark-response continuations (app.js lines
120-121 and 169-170): drop `marked` and then `mark-1` … `mark-9` in the loop
order of the source. -/
def clearMarks (td : Cell) : Cell :=
  removeClass (removeClass (removeClass (removeClass (removeClass (removeClass
    (removeClass (removeClass (removeClass (removeClass td "marked")
      "mark-1") "mark-2") "mark-3") "mark-4") "mark-5") "mark-6") "mark-7")
        "mark-8") "mark-9"

/-- Predicate: the cell carries one of the classes `mark-1` … `mark-9`
(the explicit list the initialization code checks). -/
def hasSomeMark (c : Cell) : Bool :=
  hasClass c "mark-1" || hasClass c "mark-2" || hasClass c "mark-3" ||
  hasClass c "mark-4" || hasClass c "mark-5" || hasClass c "mark-6" ||
  hasClass c "mark-7" || hasClass c "mark-8" || hasClass c "mark-9"

/-- A JSON value as far as the script inspects one (the `ok` and `mark`
fields of a response body). -/
inductive JVal where
  | num : Int → JVal
  | str : String → JVal
  | bool : Bool → JVal
  | null : JVal
deriving DecidableEq, Repr

/-- JavaScript truthiness test (falsy values: `0`, the empty string, `false`
and `null`/`undefined`; an absent field is handled by the callers). -/
def jsFalsy : JVal → Bool
  | .num n => n = 0
  | .str s => s = ""
  | .bool b => !b
  | .null => true

/-- JavaScript `String(v)` on the modelled JSON values. -/
def jsToString : JVal → String
  | .num n => toString n
  | .str s => s
  | .bool b => if b then "true" else "false"
  | .null => "null"

/-- A parsed JSON response object: the two fields the script reads.  `none`
for a field models `undefined`. -/
structure JResp where
  ok : Option JVal
  mark : Option JVal
deriving DecidableEq, Repr

/-- The script's failure test `data.ok === false`: strict equality, so only
the boolean `false` counts. -/
def okIsFalse (r : JResp) : Bool :=
  match r.ok with
  | some (.bool false) => true
  | _ => false

/-- The value `parseInt(data.mark || 0)` computed by the mark continuations
(app.js lines 122 and 171): a falsy or absent `mark` is replaced by `0`
before `parseInt`; `none` models a NaN result. -/
def parsedMark (r : JResp) : Option Int :=
  let v : JVal :=
    match r.mark with
    | none => .num 0
    | some w => if jsFalsy w then .num 0 else w
  jsParseInt (jsToString v)

/-- The DOM effect of a successful mark response on the target cell (app.js
lines 119-123 and 168-172): clear `marked`/`mark-1..9`, then add `marked`
and `mark-m` together when the parsed mark is positive. -/
def applyMarkData (td : Cell) (data : JResp) : Cell :=
  let cleared := clearMarks td
  match parsedMark data with
  | none => cleared
  | some m =>
    if 0 < m then addClass (addClass cleared "marked") ("mark-" ++ toString m)
    else cleared

/-- Outcome of a `fetch(...).then(r => r.json())` chain: the promise chain
rejected (network error or invalid JSON), or it resolved to a body that is
either falsy (`resolved none`) or an object. -/
inductive FetchOutcome where
  | rejected : FetchOutcome
  | resolved : Option JResp → FetchOutcome
deriving DecidableEq, Repr

/-- Everything a mark-response continuation does: the resulting cell, whether
`computeSumBar` was re-run, and any follow-up requests it issues (the source
continuations never issue one, so the list is always empty). -/
structure MarkHandlerResult where
  cell : Cell
  sumBarRecomputed : Bool
  requests : List String
deriving DecidableEq, Repr

/-- The whole mark-response continuation (app.js lines 115-126 for click,
166-174 for keydown; both bodies are identical): on rejection or a falsy or
`ok === false` body nothing happens beyond logging; otherwise the classes are
updated from the response and the sum bar is recomputed. -/
def markHandler (td : Cell) (o : FetchOutcome) : MarkHandlerResult :=
  match o with
  | .rejected => ⟨td, false, []⟩
  | .resolved none => ⟨td, false, []⟩
  | .resolved (some data) =>
    if okIsFalse data then ⟨td, false, []⟩
    else ⟨applyMarkData td data, true, []⟩

/-! ### The mark values sent to the `marcar` endpoint -/

/-- Mark value chosen by the `td.num-cell` click handler (app.js lines
107-108): `0` with Shift, `1` with Ctrl/Meta, `-1` otherwise. -/
def clickMark (shiftKey ctrlKey metaKey : Bool) : Int :=
  if shiftKey then 0 else if ctrlKey || metaKey then 1 else -1

/-- Mark value sent by the document keydown handler (app.js lines 155-165):
nothing without a previously clicked cell, or when `parseInt(e.key)` is NaN
or outside `0..9`; otherwise the digit itself. -/
def keydownMark (hasLastClicked : Bool) (key : String) : Option Int :=
  if hasLastClicked = false then none
  else
    match jsParseInt key with
    | none => none
    | some d => if d < 0 || 9 < d then none else some d

/-- The two client-side triggers of a POST to the `marcar` endpoint. -/
inductive MarkEvent where
  | click (shiftKey ctrlKey metaKey : Bool)
  | keydown (key : String)
deriving DecidableEq, Repr

/-- Mark value in the POST body of the request a trigger produces (`none`
when no request is sent).  A click always sends one; a keydown sends one only
for a digit key after a num-cell click. -/
def sentMark : MarkEvent → Option Int
  | .click s c m => some (clickMark s c m)
  | .keydown k => keydownMark true k

example : sentMark (.click false false false) = some (-1) := by rfl
example : sentMark (.click true false false) = some 0 := by rfl
example : sentMark (.click false true false) = some 1 := by rfl
example : sentMark (.keydown "5") = some 5 := by rfl
example : sentMark (.keydown "a") = none := by rfl
example : keydownMark false "5" = none := by rfl
example : parsedMark ⟨none, some (.num 15)⟩ = some 15 := by rfl
example : parsedMark ⟨none, some (.str "3")⟩ = some 3 := by rfl
example : parsedMark ⟨none, none⟩ = some 0 := by rfl
example : parsedMark ⟨none, some (.str "abc")⟩ = none := by rfl
example :
    applyMarkData ⟨["num-cell"], none, none, none⟩ ⟨none, some (.num 3)⟩ =
      ⟨["num-cell", "marked", "mark-3"], none, none, none⟩ := by rfl

/-! ### Sum bar (`computeSumBar` / `sumMarked`) -/

/-- A table as the summation code sees it: its `td` cells in document
order. -/
structure STable where
  cells : List Cell
deriving DecidableEq, Repr

/-- The selector `td.num-cell.marked[data-col='col']` as a predicate. -/
def selMarkedCell (col : String) (c : Cell) : Bool :=
  hasClass c "num-cell" && hasClass c "marked" && c.dataCol = some col

/-- The script's `sumMarked` (app.js lines 216-223): accumulate
`parseNum(data-val ?? '0')` over the selected cells, starting from 0. -/
def sumMarked (t : STable) (col : String) : JsNum :=
  (t.cells.filter (selMarkedCell col)).foldl
    (fun s c => jsAdd s (parseNum (c.dataVal.getD "0"))) (.finite 0)

/-- Specification-style sum of a list of JavaScript numbers. -/
def jsSum : List JsNum → JsNum
  | [] => .finite 0
  | x :: xs => jsAdd x (jsSum xs)

/-- The rendered sum bar: the two displayed totals and the bar's
`style.display` value. -/
structure SumBar where
  debe : JsNum
  haber : JsNum
  display : String
deriving DecidableEq, Repr

/-- The script's `computeSumBar` (app.js lines 198-214).  `hasCard` models
whether `table.closest('.card')` exists: without a card the function returns
before touching anything.  The bar text shows the two `sumMarked` totals and
the bar is hidden exactly when both compare `=== 0`. -/
def computeSumBar (hasCard : Bool) (t : STable) : Option SumBar :=
  if hasCard = false then none
  else
    let sumDebe := sumMarked t "DEBE"
    let sumHaber := sumMarked t "HABER"
    some { debe := sumDebe, haber := sumHaber,
           display := if jsEqZero sumDebe && jsEqZero sumHaber then "none" else "block" }

/-! ### Pagado (double-click) handler -/

/-- A table row as the pagado handler sees it: its `data-id` attribute and
the class lists of the elements inside it (the row's descendants, which is
what `tr.querySelectorAll` searches). -/
structure PagRow where
  dataId : Option String
  descClasses : List (List String)
deriving DecidableEq, Repr

/-- Request decision of the dblclick handler (app.js lines 134-138): no
enclosing `tr`, or a missing or empty (falsy) `data-id`, means no POST;
otherwise the id is POSTed to the `pagado` endpoint. -/
def pagadoRequestId (tr? : Option PagRow) : Option String :=
  match tr? with
  | none => none
  | some tr =>
    match tr.dataId with
    | none => none
    | some id => if id = "" then none else some id

/-- Effect of `tr.querySelectorAll('.overdue').forEach(el =>
el.classList.remove('overdue'))` (app.js line 143). -/
def clearOverdueRow (tr : PagRow) : PagRow :=
  { tr with descClasses := tr.descClasses.map (fun cls => cls.filter (fun t => t ≠ "overdue")) }

/-- The pagado response continuation (app.js lines 139-145): nothing on
rejection, a falsy body or `ok === false`; otherwise the overdue highlight
is removed from the row. -/
def pagadoHandler (tr : PagRow) (o : FetchOutcome) : PagRow :=
  match o with
  | .rejected => tr
  | .resolved none => tr
  | .resolved (some data) => if okIsFalse data then tr else clearOverdueRow tr

/-- The whole dblclick interaction on a `venc-cell`/`venc-days` cell: the
request sent (if any) and the row afterwards, given the fetch outcome the
environment would deliver. -/
def dblclickPagado (tr? : Option PagRow) (o : FetchOutcome) :
    Option String × Option PagRow :=
  match pagadoRequestId tr? with
  | none => (none, tr?)
  | some id => (some id, tr?.map (fun tr => pagadoHandler tr o))

/-! ### Drag-and-drop reorder -/

/-- A row of a `table.reorder-table` body: only its `data-id` matters to the
dragend handler. -/
structure RRow where
  dataId : Option String
deriving DecidableEq, Repr

/-- A reorder table: its `data-cliente` attribute and its `tbody` rows in
their current (post-drag) DOM order. -/
structure RTable where
  dataCliente : Option String
  rows : List RRow
deriving DecidableEq, Repr

/-- The handler's `isValidId` (app.js line 34): a string whose trimmed form
matches `/^\d+$/`. -/
def isValidId (v : Option String) : Bool :=
  match v with
  | none => false
  | some s => !(trimChars s.data).isEmpty && (trimChars s.data).all Char.isDigit

/-- The id list built on dragend (app.js lines 58-60): the rows' `data-id`
attributes in DOM order, keeping only valid ids. -/
def orderedValidIds (t : RTable) : List String :=
  (t.rows.map RRow.dataId).filterMap
    (fun v => if isValidId v then v else none)

/-- The dragend handler's request decision (app.js lines 54-67): one POST of
the client name and the ordered id list, unless `data-cliente` is missing or
falsy or the id list is empty.  The source issues exactly one `fetch` on
this path, so the model returns at most one request. -/
def dragendRequest (t : RTable) : Option (String × List String) :=
  let ids := orderedValidIds t
  match t.dataCliente with
  | none => none
  | some c => if c = "" || ids.isEmpty then none else some (c, ids)

/-! ### Date-sort toggle -/

/-- Query parameters of the current URL as an ordered key-value list. -/
def getParam (params : List (String × String)) (k : String) : Option String :=
  (params.find? (fun p => p.1 = k)).map (fun p => p.2)

/-- Drop every entry with the given key. -/
def removeAllParam (params : List (String × String)) (k : String) :
    List (String × String) :=
  params.filter (fun p => p.1 ≠ k)

/-- `URLSearchParams.set`: overwrite the first entry with the key, delete the
other entries with it, or append when absent. -/
def setParam (params : List (String × String)) (k v : String) :
    List (String × String) :=
  match params with
  | [] => [(k, v)]
  | (k', v') :: rest =>
    if k' = k then (k, v) :: removeAllParam rest k
    else (k', v') :: setParam rest k v

/-- JavaScript `toLowerCase` modelled character-wise. -/
def lowerString (s : String) : String := String.mk (s.data.map Char.toLower)

/-- The FECHA-header click handler (app.js lines 235-243): read the table's
`data-orden`, default it to `'asc'` via the falsy test
`(getAttribute('data-orden') || 'asc')` — so a missing *or empty* attribute
both default — lowercase it, toggle, and navigate to the current URL with
`orden` set to the toggled value. -/
def sortClickTarget (dataOrden : Option String) (params : List (String × String)) :
    List (String × String) :=
  let attr :=
    match dataOrden with
    | none => "asc"
    | some s => if s = "" then "asc" else s
  let current := lowerString attr
  let next := if current = "asc" then "desc" else "asc"
  setParam params "orden" next

example : dragendRequest ⟨some "", [⟨some "1"⟩]⟩ = none := by rfl
example : dragendRequest ⟨some "acme", [⟨some "2"⟩, ⟨some "x"⟩, ⟨some "1"⟩]⟩ =
    some ("acme", ["2", "1"]) := by rfl
example : pagadoRequestId (some ⟨some "", [["overdue"]]⟩) = none := by rfl
example : dblclickPagado (some ⟨some "7", [["overdue", "b"], ["c"]]⟩)
    (.resolved (some ⟨some (.bool true), none⟩)) =
    (some "7", some ⟨some "7", [["b"], ["c"]]⟩) := by rfl
example : sortClickTarget none [("a", "1")] = [("a", "1"), ("orden", "desc")] := by rfl
example : sortClickTarget (some "DESC") [("orden", "desc")] = [("orden", "asc")] := by rfl
example : computeSumBar true ⟨[⟨["num-cell", "marked"], none, some "DEBE", some "7"⟩]⟩ =
    some ⟨.finite 7, .finite 0, "block"⟩ := by
  have h : parseNum "7" = JsNum.finite 7 := by rfl
  simp [computeSumBar, sumMarked, selMarkedCell, hasClass, h, jsAdd, jsEqZero]

/-! ### Helper lemmas -/

theorem hasClass_removeClass (c : Cell) (s t : String) :
    hasClass (removeClass c s) t = (hasClass c t && t ≠ s) := by
  simp only [hasClass, removeClass]
  induction c.classes with
  | nil => simp
  | cons x xs ih =>
    by_cases hx : x = s <;> by_cases ht : t = x <;>
      (simp [List.filter, hx, ht, ih]; try simp_all)

theorem hasClass_addClass (c : Cell) (s t : String) :
    hasClass (addClass c s) t = (hasClass c t || t = s) := by
  simp only [hasClass, addClass]
  by_cases hc : c.classes.contains s
  · by_cases ht : t = s <;> simp_all
  · by_cases ht : t = s <;> simp_all

theorem hasClass_addClass_self (c : Cell) (s : String) :
    hasClass (addClass c s) s = true := by
  simp [hasClass_addClass]

theorem hasClass_clearMarks_marked (td : Cell) :
    hasClass (clearMarks td) "marked" = false := by
  simp [clearMarks, hasClass_removeClass]

theorem jsAdd_finite_zero (x : JsNum) : jsAdd x (.finite 0) = x := by
  cases x <;> simp [jsAdd]

theorem jsAdd_assoc (a b c : JsNum) : jsAdd (jsAdd a b) c = jsAdd a (jsAdd b c) := by
  cases a <;> cases b <;> cases c <;> simp [jsAdd, add_assoc]

theorem foldl_jsAdd_eq_jsSum (f : Cell → JsNum) (l : List Cell) (s : JsNum) :
    l.foldl (fun a c => jsAdd a (f c)) s = jsAdd s (jsSum (l.map f)) := by
  induction l generalizing s with
  | nil => simp [jsSum, jsAdd_finite_zero]
  | cons x xs ih => simp [jsSum, ih, jsAdd_assoc]

theorem jsAdd_zero_left (x : JsNum) : jsAdd (.finite 0) x = x := by
  cases x <;> simp [jsAdd]

theorem sumMarked_eq_jsSum (t : STable) (col : String) :
    sumMarked t col =
      jsSum ((t.cells.filter (selMarkedCell col)).map
        (fun c => parseNum (c.dataVal.getD "0"))) := by
  simp only [sumMarked, foldl_jsAdd_eq_jsSum, jsAdd_zero_left]

theorem jsEqZero_iff (x : JsNum) : jsEqZero x = true ↔ x = .finite 0 := by
  cases x <;> simp [jsEqZero]

theorem getParam_cons (a b j : String) (l : List (String × String)) :
    getParam ((a, b) :: l) j = if a = j then some b else getParam l j := by
  by_cases h : a = j <;> simp [getParam, List.find?, h]

theorem getParam_removeAllParam (p : List (String × String)) (k j : String)
    (h : j ≠ k) : getParam (removeAllParam p k) j = getParam p j := by
  have h' : ¬(k = j) := fun e => h e.symm
  induction p with
  | nil => rfl
  | cons x xs ih =>
    obtain ⟨a, b⟩ := x
    by_cases ha : a = k
    · subst ha
      simpa [removeAllParam, getParam_cons, h'] using ih
    · by_cases haj : a = j <;>
        simp_all [removeAllParam, getParam_cons]

theorem getParam_setParam_same (p : List (String × String)) (k v : String) :
    getParam (setParam p k v) k = some v := by
  induction p with
  | nil => simp [setParam, getParam_cons]
  | cons x xs ih =>
    obtain ⟨a, b⟩ := x
    by_cases ha : a = k
    · subst ha
      simp [setParam, getParam_cons]
    · simpa [setParam, getParam_cons, ha] using ih

theorem getParam_setParam_other (p : List (String × String)) (k v j : String)
    (h : j ≠ k) : getParam (setParam p k v) j = getParam p j := by
  have h' : ¬(k = j) := fun e => h e.symm
  induction p with
  | nil => simp [setParam, getParam_cons, h']
  | cons x xs ih =>
    obtain ⟨a, b⟩ := x
    by_cases ha : a = k
    · subst ha
      simp [setParam, getParam_cons, h', getParam_removeAllParam xs a j h]
    · by_cases haj : a = j <;> simp [setParam, ha, haj, getParam_cons, ih, h]

theorem contains_filter_ne (l : List String) (s : String) :
    (l.filter (fun t => t ≠ s)).contains s = false := by
  induction l with
  | nil => rfl
  | cons x xs ih =>
    by_cases hx : x = s
    · simp [List.filter, hx, ih]
    · have hsx : ¬s = x := fun e => hx e.symm
      simp [List.filter, hx, hsx, ih]

theorem jsEqZero_finite_zero : jsEqZero (.finite 0) = true := by
  simp [jsEqZero]

theorem jsEqZero_eq_false (x : JsNum) (h : x ≠ .finite 0) : jsEqZero x = false := by
  cases hx : jsEqZero x
  · rfl
  · exact absurd ((jsEqZero_iff x).1 hx) h

theorem initCleanup_eq (td : Cell) :
    initCleanup td = if hasSomeMark td then td else removeClass td "marked" := by
  have hc : (!hasClass td "mark-1" && !hasClass td "mark-2" && !hasClass td "mark-3" &&
      !hasClass td "mark-4" && !hasClass td "mark-5" && !hasClass td "mark-6" &&
      !hasClass td "mark-7" && !hasClass td "mark-8" && !hasClass td "mark-9")
      = !(hasSomeMark td) := by
    simp [hasSomeMark, Bool.not_or]
  unfold initCleanup
  rw [hc]
  cases h : hasSomeMark td <;> simp

/-! ### Claims -/

/-- C1 (corrected).  Counterexample to the claim as stated: a plain click
(no Shift/Ctrl/Meta) on a `td.num-cell` does send a request to the `marcar`
endpoint, and its mark value is `-1`, which is not in `[0, 9]`. -/
theorem sentMark_plain_click_counterexample :
    sentMark (MarkEvent.click false false false) = some (-1)
    ∧ ¬((0 : Int) ≤ -1 ∧ (-1 : Int) ≤ 9) :=
  ⟨rfl, by decide⟩

/-- C1 (amended).  Every mark value POSTed to the `marcar` endpoint is an
integer in `[-1, 9]`, and the keydown-triggered requests carry a mark in
`[0, 9]`; a click sends `0` with Shift, `1` with Ctrl/Meta and the toggle
sentinel `-1` otherwise. -/
theorem sentMark_range_amended (e : MarkEvent) (m : Int)
    (h : sentMark e = some m) :
    (-1 ≤ m ∧ m ≤ 9) ∧ ∀ k, e = MarkEvent.keydown k → 0 ≤ m := by
  cases e with
  | click s c mt =>
    have hm : clickMark s c mt = m := by simpa [sentMark] using h
    subst hm
    exact ⟨by cases s <;> cases c <;> cases mt <;> decide, fun k hk => by cases hk⟩
  | keydown k =>
    have h' : keydownMark true k = some m := h
    rw [keydownMark] at h'
    simp only [Bool.true_eq_false, if_false] at h'
    split at h'
    · cases h'
    · rename_i d heq
      split at h'
      · cases h'
      · rename_i hd
        have hm : d = m := by injection h'
        subst hm
        simp only [Bool.or_eq_true, decide_eq_true_eq, not_or, not_lt] at hd
        exact ⟨⟨by omega, hd.2⟩, fun _ _ => hd.1⟩

/-- Witness for C1's amended theorem at the keydown digit `5`. -/
theorem sentMark_range_witness :
    (-1 ≤ (5 : Int) ∧ (5 : Int) ≤ 9)
    ∧ ∀ k, MarkEvent.keydown "5" = MarkEvent.keydown k → 0 ≤ (5 : Int) :=
  sentMark_range_amended (MarkEvent.keydown "5") 5 (by rfl)

/-- C2 (corrected).  Counterexample to the claim as stated: when the table
carries an *empty* `data-cliente` attribute (present, yet falsy), the
handler sends no POST even though the id list is non-empty. -/
theorem dragendRequest_empty_cliente_counterexample :
    dragendRequest ⟨some "", [⟨some "1"⟩]⟩ = none
    ∧ (⟨some "", [⟨some "1"⟩]⟩ : RTable).dataCliente ≠ none
    ∧ orderedValidIds ⟨some "", [⟨some "1"⟩]⟩ = ["1"] :=
  ⟨rfl, by simp, rfl⟩

/-- C2 (amended).  On drag-end exactly one POST is sent, whose body is the
ordered list of the tbody rows' valid (digit-string) `data-id` attributes in
their new DOM order, unless the `data-cliente` attribute is absent *or
empty* or the id list is empty, in which case no request is sent. -/
theorem dragendRequest_amended (t : RTable) :
    (∀ c : String, t.dataCliente = some c → c ≠ "" → orderedValidIds t ≠ [] →
      dragendRequest t = some (c, orderedValidIds t))
    ∧ ((t.dataCliente = none ∨ t.dataCliente = some "" ∨ orderedValidIds t = []) →
      dragendRequest t = none) := by
  constructor
  · intro c hc hne hids
    simp [dragendRequest, hc, hne, List.isEmpty_iff, hids]
  · rintro (h | h | h)
    · simp [dragendRequest, h]
    · simp [dragendRequest, h]
    · cases hc : t.dataCliente <;> simp [dragendRequest, hc, h, List.isEmpty_iff]

/-- Witness for C2's amended theorem on a two-row table. -/
theorem dragendRequest_witness :
    dragendRequest ⟨some "acme", [⟨some "2"⟩, ⟨some "1"⟩]⟩ =
      some ("acme", orderedValidIds ⟨some "acme", [⟨some "2"⟩, ⟨some "1"⟩]⟩) :=
  (dragendRequest_amended _).1 "acme" rfl (by decide) (by decide)

/-- C3 (corrected).  Counterexample to the claim as stated: with the cell
and everything the client decided fixed, two different response payloads
produce two different class lists, so the class update *does* depend on the
contents of the server's response payload (it uses the response's `mark`
field, not the value sent). -/
theorem markUpdate_not_optimistic_counterexample :
    markHandler ⟨["num-cell"], none, none, none⟩
        (.resolved (some ⟨none, some (.num 3)⟩)) ≠
      markHandler ⟨["num-cell"], none, none, none⟩
        (.resolved (some ⟨none, some (.num 5)⟩)) := by
  decide

/-- C3 (amended).  The mark class update happens without a reload, but it is
not optimistic: it runs only after a response whose `ok` is not `false`, and
the classes are computed from the response's parsed `mark` field — the cell
is cleared and, for a positive parsed mark `m`, gets `marked` and `mark-m`. -/
theorem markUpdate_from_response_amended (td : Cell) (data : JResp) (m : Int)
    (hok : okIsFalse data = false) (hm : parsedMark data = some m) (hpos : 0 < m) :
    markHandler td (.resolved (some data)) =
      ⟨addClass (addClass (clearMarks td) "marked") ("mark-" ++ toString m),
        true, []⟩ := by
  simp [markHandler, hok, applyMarkData, hm, hpos]

/-- Witness for C3's amended theorem at a concrete cell and response. -/
theorem markUpdate_from_response_witness :
    markHandler ⟨["num-cell"], none, none, none⟩
        (.resolved (some ⟨none, some (.num 2)⟩)) =
      ⟨addClass (addClass (clearMarks ⟨["num-cell"], none, none, none⟩) "marked")
        ("mark-" ++ toString (2 : Int)), true, []⟩ :=
  markUpdate_from_response_amended _ _ 2 (by rfl) (by rfl) (by decide)

/-- C4 (confirmed).  When the mark fetch rejects, or the body is falsy, or
`ok === false`, the continuation leaves the cell untouched, does not re-run
the sum bar computation, and issues no further request (no retry, no
rollback). -/
theorem markHandler_failure_noop (td : Cell) (o : FetchOutcome)
    (h : o = .rejected ∨ o = .resolved none ∨
      ∃ data, o = .resolved (some data) ∧ okIsFalse data = true) :
    markHandler td o = ⟨td, false, []⟩ := by
  rcases h with h | h | ⟨data, h, hok⟩
  · subst h; rfl
  · subst h; rfl
  · subst h; simp [markHandler, hok]

/-- Witness for C4's theorem at a rejected fetch. -/
theorem markHandler_failure_noop_witness :
    markHandler ⟨["num-cell"], none, none, none⟩ .rejected =
      ⟨⟨["num-cell"], none, none, none⟩, false, []⟩ :=
  markHandler_failure_noop _ _ (Or.inl rfl)

/-- C5 (confirmed).  The sum bar shows as Debe (resp. Haber) total exactly
the sum of `parseNum` over the `data-val` of every `td.num-cell` that is
`marked` with `data-col` `DEBE` (resp. `HABER`) in the table. -/
theorem computeSumBar_totals (t : STable) (bar : SumBar)
    (h : computeSumBar true t = some bar) :
    bar.debe = jsSum ((t.cells.filter (selMarkedCell "DEBE")).map
        (fun c => parseNum (c.dataVal.getD "0")))
    ∧ bar.haber = jsSum ((t.cells.filter (selMarkedCell "HABER")).map
        (fun c => parseNum (c.dataVal.getD "0"))) := by
  have hb : bar = ⟨sumMarked t "DEBE", sumMarked t "HABER",
      if jsEqZero (sumMarked t "DEBE") && jsEqZero (sumMarked t "HABER") then
        "none" else "block"⟩ := by
    simpa [computeSumBar] using h.symm
  subst hb
  exact ⟨sumMarked_eq_jsSum t "DEBE", sumMarked_eq_jsSum t "HABER"⟩

/-- Witness for C5's theorem at the empty table. -/
theorem computeSumBar_totals_witness :
    (⟨.finite 0, .finite 0, "none"⟩ : SumBar).debe =
      jsSum (((⟨[]⟩ : STable).cells.filter (selMarkedCell "DEBE")).map
        (fun c => parseNum (c.dataVal.getD "0"))) :=
  (computeSumBar_totals ⟨[]⟩ ⟨.finite 0, .finite 0, "none"⟩ (by rfl)).1

/-- C6 (corrected).  Counterexample to the claim as stated: at a present but
*empty* `data-orden` attribute the handler navigates to `orden=desc` — the
source defaults any falsy attribute to `'asc'` — while the claim's rule
(default only when absent) leaves the empty current value, which is not
`'asc'`, and so predicts `orden=asc`. -/
theorem sortClickTarget_empty_orden_counterexample :
    getParam (sortClickTarget (some "") []) "orden" = some "desc"
    ∧ lowerString ((some "" : Option String).getD "asc") ≠ "asc" :=
  ⟨rfl, by decide⟩

/-- C6 (amended).  Clicking a sortable FECHA header navigates to the current
URL whose `orden` query parameter is `desc` exactly when the table's
lowercased `data-orden` — defaulting to `asc` when absent *or empty* —
equals `asc`, and `asc` otherwise; every other query parameter is left as it
was. -/
theorem sortClickTarget_orden_amended (d : Option String) (p : List (String × String)) :
    getParam (sortClickTarget d p) "orden" =
      some (if lowerString (if d.getD "" = "" then "asc" else d.getD "") = "asc"
        then "desc" else "asc")
    ∧ ∀ k, k ≠ "orden" → getParam (sortClickTarget d p) k = getParam p k := by
  have hattr : (match d with
      | none => "asc"
      | some s => if s = "" then "asc" else s) =
      (if d.getD "" = "" then "asc" else d.getD "") := by
    cases d with
    | none => simp
    | some s => by_cases hs : s = "" <;> simp [hs]
  constructor
  · by_cases h : lowerString (if d.getD "" = "" then "asc" else d.getD "") = "asc" <;>
      simp [sortClickTarget, hattr, h, getParam_setParam_same]
  · intro k hk
    by_cases h : lowerString (if d.getD "" = "" then "asc" else d.getD "") = "asc" <;>
      simp [sortClickTarget, hattr, h, getParam_setParam_other _ _ _ _ hk]

/-- Witness for C6's amended theorem at the repaired empty-attribute case. -/
theorem sortClickTarget_orden_amended_witness :
    getParam (sortClickTarget (some "") [("q", "1")]) "orden" = some "desc"
    ∧ getParam (sortClickTarget (some "") [("q", "1")]) "q" =
        getParam [("q", "1")] "q" :=
  ⟨((sortClickTarget_orden_amended (some "") [("q", "1")]).1).trans (by rfl),
    (sortClickTarget_orden_amended (some "") [("q", "1")]).2 "q" (by decide)⟩

/-- C7 (corrected).  Counterexample to the claim as stated: a row whose
`data-id` attribute is present but empty gets no POST on double-click, even
though the claim promises one whenever the attribute exists. -/
theorem dblclickPagado_empty_id_counterexample :
    (dblclickPagado (some ⟨some "", [["overdue"]]⟩)
        (.resolved (some ⟨some (.bool true), none⟩))).1 = none
    ∧ (⟨some "", [["overdue"]]⟩ : PagRow).dataId.isSome = true :=
  ⟨rfl, rfl⟩

/-- C7 (amended).  On double-click of a `venc-cell`/`venc-days` cell whose
row has a *non-empty* `data-id`, the client POSTs that id to the `pagado`
endpoint and, when the response is present and not `ok === false`, removes
`overdue` from every element inside the row; with a missing or empty
`data-id` no request is sent and the row is unchanged. -/
theorem dblclickPagado_amended (tr : PagRow) (o : FetchOutcome) :
    (∀ id : String, tr.dataId = some id → id ≠ "" →
      (dblclickPagado (some tr) o).1 = some id
      ∧ (∀ data : JResp, o = .resolved (some data) → okIsFalse data = false →
          (dblclickPagado (some tr) o).2 = some (clearOverdueRow tr)
          ∧ ∀ cls ∈ (clearOverdueRow tr).descClasses,
              cls.contains "overdue" = false))
    ∧ ((tr.dataId = none ∨ tr.dataId = some "") →
      dblclickPagado (some tr) o = (none, some tr)) := by
  constructor
  · intro id hid hne
    have hreq : pagadoRequestId (some tr) = some id := by
      simp [pagadoRequestId, hid, hne]
    constructor
    · simp [dblclickPagado, hreq]
    · intro data ho hok
      subst ho
      constructor
      · simp [dblclickPagado, hreq, pagadoHandler, hok]
      · intro cls hcls
        simp only [clearOverdueRow, List.mem_map] at hcls
        obtain ⟨cls0, hmem, rfl⟩ := hcls
        exact contains_filter_ne cls0 "overdue"
  · intro h
    have hreq : pagadoRequestId (some tr) = none := by
      rcases h with h | h <;> simp [pagadoRequestId, h]
    simp [dblclickPagado, hreq]

/-- Witness for C7's amended theorem at a concrete row and response. -/
theorem dblclickPagado_witness :
    (dblclickPagado (some ⟨some "7", [["overdue", "x"]]⟩)
        (.resolved (some ⟨none, none⟩))).1 = some "7"
    ∧ (dblclickPagado (some ⟨some "7", [["overdue", "x"]]⟩)
        (.resolved (some ⟨none, none⟩))).2 =
      some (clearOverdueRow ⟨some "7", [["overdue", "x"]]⟩) :=
  ⟨((dblclickPagado_amended ⟨some "7", [["overdue", "x"]]⟩
      (.resolved (some ⟨none, none⟩))).1 "7" rfl (by decide)).1,
    (((dblclickPagado_amended ⟨some "7", [["overdue", "x"]]⟩
      (.resolved (some ⟨none, none⟩))).1 "7" rfl (by decide)).2
        ⟨none, none⟩ rfl rfl).1⟩

/-- C8 (corrected).  Counterexample to the claim as stated: a response whose
`mark` field parses to 15 makes the update code add `marked` together with
`mark-15`, so the cell carries `marked` but none of `mark-1` … `mark-9`. -/
theorem mark_invariant_counterexample :
    hasClass (markHandler ⟨["num-cell"], none, none, none⟩
        (.resolved (some ⟨none, some (.num 15)⟩))).cell "marked" = true
    ∧ hasSomeMark (markHandler ⟨["num-cell"], none, none, none⟩
        (.resolved (some ⟨none, some (.num 15)⟩))).cell = false :=
  ⟨rfl, rfl⟩

/-- C8 (amended).  After initialization every `marked` num-cell carries one
of `mark-1` … `mark-9`, and a mark update preserves this *provided the
response's parsed mark is at most 9* (the update adds `marked` only together
with the single class `mark-m` of the positive parsed mark `m`). -/
theorem mark_invariant_amended :
    (∀ td : Cell, hasClass (initCleanup td) "marked" = true →
      hasSomeMark (initCleanup td) = true)
    ∧ (∀ (td : Cell) (data : JResp) (m : Int), okIsFalse data = false →
        parsedMark data = some m → m ≤ 9 →
        hasClass (markHandler td (.resolved (some data))).cell "marked" = true →
        hasSomeMark (markHandler td (.resolved (some data))).cell = true) := by
  constructor
  · intro td h
    rw [initCleanup_eq] at h ⊢
    by_cases hs : hasSomeMark td = true
    · rw [if_pos hs]
      exact hs
    · rw [if_neg hs, hasClass_removeClass] at h
      simp at h
  · intro td data m hok hm hle hmk
    have hcell : (markHandler td (.resolved (some data))).cell = applyMarkData td data := by
      simp [markHandler, hok]
    rw [hcell] at hmk ⊢
    by_cases hpos : 0 < m
    · have happ : applyMarkData td data =
          addClass (addClass (clearMarks td) "marked") ("mark-" ++ toString m) := by
        simp [applyMarkData, hm, hpos]
      rw [happ]
      interval_cases m
      · show hasSomeMark (addClass (addClass (clearMarks td) "marked") "mark-1") = true
        simp [hasSomeMark, hasClass_addClass]
      · show hasSomeMark (addClass (addClass (clearMarks td) "marked") "mark-2") = true
        simp [hasSomeMark, hasClass_addClass]
      · show hasSomeMark (addClass (addClass (clearMarks td) "marked") "mark-3") = true
        simp [hasSomeMark, hasClass_addClass]
      · show hasSomeMark (addClass (addClass (clearMarks td) "marked") "mark-4") = true
        simp [hasSomeMark, hasClass_addClass]
      · show hasSomeMark (addClass (addClass (clearMarks td) "marked") "mark-5") = true
        simp [hasSomeMark, hasClass_addClass]
      · show hasSomeMark (addClass (addClass (clearMarks td) "marked") "mark-6") = true
        simp [hasSomeMark, hasClass_addClass]
      · show hasSomeMark (addClass (addClass (clearMarks td) "marked") "mark-7") = true
        simp [hasSomeMark, hasClass_addClass]
      · show hasSomeMark (addClass (addClass (clearMarks td) "marked") "mark-8") = true
        simp [hasSomeMark, hasClass_addClass]
      · show hasSomeMark (addClass (addClass (clearMarks td) "marked") "mark-9") = true
        simp [hasSomeMark, hasClass_addClass]
    · have happ : applyMarkData td data = clearMarks td := by
        simp [applyMarkData, hm, hpos]
      rw [happ, hasClass_clearMarks_marked] at hmk
      cases hmk

/-- Witness for C8's amended theorem: the initialization part on a cell with
a stale mark class, and the update part at parsed mark 3. -/
theorem mark_invariant_witness :
    hasSomeMark (initCleanup ⟨["marked", "mark-2"], none, none, none⟩) = true
    ∧ hasSomeMark (markHandler ⟨["num-cell", "marked", "mark-2"], none, none, none⟩
        (.resolved (some ⟨none, some (.num 3)⟩))).cell = true :=
  ⟨mark_invariant_amended.1 _ (by rfl),
    mark_invariant_amended.2 _ _ 3 (by rfl) (by rfl) (by decide) (by rfl)⟩

/-- C9 (confirmed).  `parseNum` is total and never NaN: the direct `Number`
value of the trimmed string is returned when it is not NaN; otherwise the
ES-converted string (dots removed, first comma to dot) is tried; and when
that is NaN too, 0 is returned. -/
theorem parseNum_total_spec (raw : String) :
    parseNum raw ≠ JsNum.nan
    ∧ ((jsNumberChars (trimChars raw.data)).isNaN = false →
        parseNum raw = jsNumberChars (trimChars raw.data))
    ∧ ((jsNumberChars (trimChars raw.data)).isNaN = true →
        ((jsNumberChars (esConvert (trimChars raw.data))).isNaN = false →
          parseNum raw = jsNumberChars (esConvert (trimChars raw.data)))
        ∧ ((jsNumberChars (esConvert (trimChars raw.data))).isNaN = true →
          parseNum raw = JsNum.finite 0)) := by
  have hne : ∀ x : JsNum, x.isNaN = false → x ≠ .nan := by
    intro x hx
    cases x <;> simp_all [JsNum.isNaN]
  by_cases h1 : (jsNumberChars (trimChars raw.data)).isNaN = false
  · have heq : parseNum raw = jsNumberChars (trimChars raw.data) := by
      simp [parseNum, h1]
    refine ⟨heq ▸ hne _ h1, fun _ => heq, fun ht => ?_⟩
    rw [ht] at h1
    cases h1
  · have h1' : (jsNumberChars (trimChars raw.data)).isNaN = true := by
      cases hx : (jsNumberChars (trimChars raw.data)).isNaN
      · exact absurd hx h1
      · rfl
    by_cases h2 : (jsNumberChars (esConvert (trimChars raw.data))).isNaN = true
    · have heq : parseNum raw = JsNum.finite 0 := by
        simp [parseNum, h1', h2]
      refine ⟨by simp [heq], fun hf => absurd hf h1, fun _ => ⟨fun hf => ?_, fun _ => heq⟩⟩
      rw [hf] at h2
      cases h2
    · have h2' : (jsNumberChars (esConvert (trimChars raw.data))).isNaN = false := by
        cases hx : (jsNumberChars (esConvert (trimChars raw.data))).isNaN
        · rfl
        · exact absurd hx h2
      have heq : parseNum raw = jsNumberChars (esConvert (trimChars raw.data)) := by
        simp [parseNum, h1', h2']
      exact ⟨heq ▸ hne _ h2', fun hf => absurd hf h1,
        fun _ => ⟨fun _ => heq, fun ht => absurd ht h2⟩⟩

/-- Witness for C9's theorem on an input where both conversions fail. -/
theorem parseNum_total_witness :
    (jsNumberChars (trimChars "abc".data)).isNaN = true
    ∧ (jsNumberChars (esConvert (trimChars "abc".data))).isNaN = true
    ∧ parseNum "abc" = JsNum.finite 0 :=
  ⟨rfl, rfl, ((parseNum_total_spec "abc").2.2 rfl).2 rfl⟩

/-- C10 (confirmed).  After `computeSumBar` on a table inside a card, the
bar's display style is `none` exactly when both the marked DEBE and HABER
sums are zero, and `block` otherwise. -/
theorem sumBar_display_iff (t : STable) (bar : SumBar)
    (h : computeSumBar true t = some bar) :
    bar.display =
      if sumMarked t "DEBE" = JsNum.finite 0 ∧ sumMarked t "HABER" = JsNum.finite 0
        then "none" else "block" := by
  have hb : bar = ⟨sumMarked t "DEBE", sumMarked t "HABER",
      if jsEqZero (sumMarked t "DEBE") && jsEqZero (sumMarked t "HABER") then
        "none" else "block"⟩ := by
    simpa [computeSumBar] using h.symm
  subst hb
  by_cases hd : sumMarked t "DEBE" = JsNum.finite 0
  · by_cases hh : sumMarked t "HABER" = JsNum.finite 0
    · simp [hd, hh, jsEqZero_finite_zero]
    · simp [hd, hh, jsEqZero_finite_zero, jsEqZero_eq_false _ hh]
  · by_cases hh : sumMarked t "HABER" = JsNum.finite 0
    · simp [hd, hh, jsEqZero_finite_zero, jsEqZero_eq_false _ hd]
    · simp [hd, hh, jsEqZero_eq_false _ hd, jsEqZero_eq_false _ hh]

/-- Witness for C10's theorem at the empty table. -/
theorem sumBar_display_witness :
    (⟨.finite 0, .finite 0, "none"⟩ : SumBar).display =
      if sumMarked ⟨[]⟩ "DEBE" = JsNum.finite 0 ∧ sumMarked ⟨[]⟩ "HABER" = JsNum.finite 0
        then "none" else "block" :=
  sumBar_display_iff ⟨[]⟩ ⟨.finite 0, .finite 0, "none"⟩ (by rfl)
